import Mathlib

/-!
Shallow embedding of the storage-injection pipeline and VM lifecycle helpers
of the agent-ctl test harness (src/tools/agent-ctl/src/vm/{utils,clh,qemu,mod}.rs).

External effects (host stat, device-manager attach, bind mounts, random strings,
hypervisor RPCs) are modelled as oracle functions collected in environment
structures; the process-wide lazy-static caches are modelled as explicit state
threaded through the functions.  Call-indexed oracles (Nat arguments) model the
fact that each call of an external operation may return a different answer.
-/

namespace KataAgentCtl

/-- Decidable equality for Except values with decidable components. -/
instance {ε α : Type} [DecidableEq ε] [DecidableEq α] : DecidableEq (Except ε α) := fun a b =>
  match a, b with
  | .error e1, .error e2 =>
    if h : e1 = e2 then .isTrue (by rw [h]) else .isFalse (by simp [h])
  | .error _, .ok _ => .isFalse (by simp)
  | .ok _, .error _ => .isFalse (by simp)
  | .ok v1, .ok v2 =>
    if h : v1 = v2 then .isTrue (by rw [h]) else .isFalse (by simp [h])

/-- Fixed container-mount base path (const CNT_MNT_BASE in utils.rs). -/
def CNT_MNT_BASE : String := "/tmp/foo"

/-- Fixed guest base path for block volumes (const GUEST_BASE_PATH in utils.rs). -/
def GUEST_BASE_PATH : String := "/run/kata-containers"

/-- Fixed guest shared path (const GUEST_SHARED_PATH in utils.rs). -/
def GUEST_SHARED_PATH : String := "/run/kata-containers/shared/containers"

/-- Fixed suffix tag appended to block-volume guest paths (const TEST_BLK_APPEND). -/
def TEST_BLK_APPEND : String := "test-blk-vol"

/-- libc wildcard guest CID for vsock (VMADDR_CID_ANY = u32 max). -/
def VMADDR_CID_ANY : Nat := 4294967295

/-- protocols::agent::Storage, restricted to the fields this code reads or writes. -/
structure Storage where
  driver : String
  driver_options : List String
  source : String
  fstype : String
  options : List String
  mount_point : String
deriving DecidableEq

/-- protocols::oci::Mount, restricted to the fields this code sets. -/
structure Mount where
  destination : String
  type_ : String
  source : String
  options : List String
deriving DecidableEq

/-- The file-type bits of st_mode that the code compares against
(SFlag::from_bits_truncate(st_mode) in nix). Only the kinds the code
distinguishes are named; every other kind is collapsed into otherKind. -/
inductive FileKind where
  | S_IFBLK
  | S_IFDIR
  | S_IFREG
  | otherKind
deriving DecidableEq

/-- The result of a successful stat call, restricted to the fields the code reads
(file-type flag of st_mode, and major/minor of st_rdev). -/
structure FileStat where
  sflag : FileKind
  rdev_major : Nat
  rdev_minor : Nat
deriving DecidableEq

/-- hypervisor::BlockConfig, restricted to the fields this code sets. -/
structure BlockConfig where
  major : Int
  minor : Int
  driver_option : String
  path_on_host : String
  is_readonly : Bool
deriving DecidableEq

/-- The config field of an attached block device (pci_path is an Option in the
device manager; its to_string image is modelled as the String itself). -/
structure BlockDeviceConfigInfo where
  pci_path : Option String
deriving DecidableEq

/-- An attached block device as returned by the device manager. -/
structure BlockDeviceInfo where
  device_id : String
  config : BlockDeviceConfigInfo
deriving DecidableEq

/-- hypervisor DeviceType: the Block variant is modelled in full; all other
variants (Network, ShareFs, Vfio, Vsock, ...) are collapsed into OtherDev
with a tag distinguishing them. -/
inductive DeviceType where
  | Block (d : BlockDeviceInfo)
  | OtherDev (tag : String)
deriving DecidableEq

/-- hypervisor DeviceConfig variants built by this code. -/
inductive DeviceConfig where
  | BlockCfg (c : BlockConfig)
  | VsockCfg (guest_cid : Nat)
  | HybridVsockCfg (guest_cid : Nat) (uds_path : String)
deriving DecidableEq

/-- Environment of external effects used by the storage pipeline:
stat results per path, the negotiated block driver string, the device-manager
attach oracle (indexed by call number), the random-hex-string generator
(indexed by call number) and the bind-mount oracle (indexed by call number). -/
structure VmEnv where
  stat : String → Option FileStat
  block_driver : String
  attach : Nat → DeviceConfig → Except String DeviceType
  rand_hex : Nat → String
  bind_mount : Nat → Except String Unit

/-- The process-wide caches (lazy-static STORAGE_INFO, OCI_MOUNTS_INFO,
UNMOUNT_HOST_INFO) plus call counters indexing the oracles. -/
structure PipelineState where
  storage_info : List Storage
  oci_mounts_info : List Mount
  unmount_host_info : List String
  attach_calls : Nat
  rand_calls : Nat
  bind_calls : Nat
deriving DecidableEq

/-- The empty caches at process start. -/
def initState : PipelineState :=
  { storage_info := [], oci_mounts_info := [], unmount_host_info := []
    attach_calls := 0, rand_calls := 0, bind_calls := 0 }

/-- generate_path in utils.rs: guest_base, a slash, the id, a slash, the suffix. -/
def generate_path (guest_base id sfx : String) : String :=
  guest_base ++ "/" ++ id ++ "/" ++ sfx

/-- get_host_share_path in utils.rs: host_path, a slash, the id, a slash, base. -/
def get_host_share_path (host_path id base : String) : String :=
  host_path ++ "/" ++ id ++ "/" ++ base

/-- to_kernel_string in vm/mod.rs. -/
def to_kernel_string (key val : String) : Except String String :=
  if key.isEmpty && val.isEmpty then
    .error "Empty key and value"
  else if key.isEmpty then
    .error "Empty key"
  else if val.isEmpty then
    .ok key
  else
    .ok (key ++ "=" ++ val)

/-- handle_block_volume in utils.rs: validate the source is a block special
file, build a BlockConfig from its major/minor, attach it through the device
manager, rewrite the storage source to the returned pci path (when the device
is a Block device), build the guest path and container mount destination from
the device id, and append one entry to the storage cache and one to the mount
cache.  Errors leave the caches unchanged (the attach-call counter still
advances when the attach call was issued). -/
def handle_block_volume (env : VmEnv) (st : PipelineState) (vol : Storage) :
    PipelineState × Except String Unit :=
  let valid_block_vol : Bool :=
    match env.stat vol.source with
    | some fstat => fstat.sflag == FileKind.S_IFBLK
    | none => false
  if !valid_block_vol then
    (st, .error ("Not a block special file: " ++ vol.source))
  else
    match env.stat vol.source with
    | none => (st, .error "stat failed")
    | some fstat =>
      let block_device_config : BlockConfig :=
        { major := (fstat.rdev_major : Int), minor := (fstat.rdev_minor : Int)
          driver_option := env.block_driver, path_on_host := "", is_readonly := false }
      let st1 := { st with attach_calls := st.attach_calls + 1 }
      match env.attach st.attach_calls (DeviceConfig.BlockCfg block_device_config) with
      | .error e => (st1, .error ("do handle device failed.: " ++ e))
      | .ok device_info =>
        let fixed : Except String (Storage × String) :=
          match device_info with
          | DeviceType.Block device =>
            match device.config.pci_path with
            | some p => .ok ({ vol with source := p }, device.device_id)
            | none => .error "block driver is blk but no pci path exists"
          | DeviceType.OtherDev _ => .ok (vol, "")
        match fixed with
        | .error e => (st1, .error e)
        | .ok (vol2, device_id) =>
          let guest_path := generate_path GUEST_BASE_PATH device_id TEST_BLK_APPEND
          let vol3 := { vol2 with mount_point := guest_path }
          let mount_dest := generate_path CNT_MNT_BASE device_id TEST_BLK_APPEND
          let m : Mount :=
            { destination := mount_dest, type_ := vol3.fstype
              source := guest_path, options := vol3.options }
          ({ st1 with storage_info := st1.storage_info ++ [vol3]
                      oci_mounts_info := st1.oci_mounts_info ++ [m] }, .ok ())

/-- Split a character list into the path components delimited by slashes. -/
def path_comps : List Char → String → List String
  | [], acc => [acc]
  | c :: cs, acc =>
    if c = '/' then acc :: path_comps cs "" else path_comps cs (acc.push c)

/-- Model of std::path::Path::file_name on the source string: the last
non-empty component that is not a current-directory marker; none for a path
ending in a parent-directory marker or with no component at all. -/
def path_file_name (s : String) : Option String :=
  let comps := (path_comps s.data "").filter (fun c => c ≠ "" && c ≠ ".")
  match comps.getLast? with
  | some c => if c = ".." then none else some c
  | none => none

/-- handle_shared_volume in utils.rs: validate the source is a directory,
build a unique host share path from a random hex string and the source base
name, bind-mount the source there, and append one derived Mount to the mount
cache and the host share path to the pending-unmount cache.  The unwrap panic
on a path without a file name is modelled as a distinguished error. -/
def handle_shared_volume (env : VmEnv) (st : PipelineState) (vol : Storage)
    (host_base_path : String) : PipelineState × Except String Unit :=
  let valid_share_vol : Bool :=
    match env.stat vol.source with
    | some fstat => fstat.sflag == FileKind.S_IFDIR
    | none => false
  if !valid_share_vol then
    (st, .error "Shared volume is not a valid directory")
  else
    match path_file_name vol.source with
    | none => (st, .error "panic: source path has no file name")
    | some file_name =>
      let random_str := env.rand_hex st.rand_calls
      let st1 := { st with rand_calls := st.rand_calls + 1 }
      let host_share_path := host_base_path ++ "/" ++ random_str ++ "-" ++ file_name
      let st2 := { st1 with bind_calls := st1.bind_calls + 1 }
      match env.bind_mount st1.bind_calls with
      | .error e =>
        (st2, .error ("handle_shared_volume:: failed to bind mount " ++ vol.source
          ++ " to " ++ host_share_path ++ ": " ++ e))
      | .ok _ =>
        let guest_path := GUEST_SHARED_PATH ++ "/" ++ random_str ++ "-" ++ file_name
        let mount_dest := CNT_MNT_BASE
        let m : Mount :=
          { destination := mount_dest, type_ := vol.fstype
            source := guest_path, options := vol.options }
        ({ st2 with oci_mounts_info := st2.oci_mounts_info ++ [m]
                    unmount_host_info := st2.unmount_host_info ++ [host_share_path] },
         .ok ())

/-- do_handle_storage in utils.rs, after the descriptor file has been read and
parsed into the list: dispatch each descriptor on its driver string, stopping
at the first error; an unrecognized driver is reported as an unsupported
storage type and aborts the remaining list, leaving the caches as they were
after the last successful descriptor. -/
def do_handle_storage (env : VmEnv) (host_share_path : String) :
    PipelineState → List Storage → PipelineState × Except String Unit
  | st, [] => (st, .ok ())
  | st, s :: rest =>
    let step : PipelineState × Except String Unit :=
      if s.driver = "blk" then
        handle_block_volume env st s
      else if s.driver = "virtio-fs" then
        handle_shared_volume env st s host_share_path
      else
        (st, .error (s.driver ++ " storage type is not supported"))
    match step with
    | (st2, .error e) => (st2, .error e)
    | (st2, .ok _) => do_handle_storage env host_share_path st2 rest

/-- Environment of external effects used by the teardown path: the result of
umount_timeout per path, the result of fs::metadata per path after unmounting
(some is_dir when metadata succeeds, none when it fails) and the result of
fs::remove_dir per path. -/
structure UnmountEnv where
  umount : String → Except String Unit
  metadata : String → Option Bool
  remove_dir : String → Except String Unit

/-- do_unmount in utils.rs over the pending-unmount cache.  The first result
component records, in order, the paths whose unmount was actually attempted;
the second is the overall result.  Each iteration unmounts the path and, when
it is a directory that still exists, removes it; the question-mark operator
propagates the first failure immediately. -/
def do_unmount (env : UnmountEnv) : List String → List String × Except String Unit
  | [] => ([], .ok ())
  | p :: rest =>
    match env.umount p with
    | .error e => ([p], .error ("unshare mounts: " ++ e))
    | .ok _ =>
      let removal : Except String Unit :=
        match env.metadata p with
        | some true =>
          match env.remove_dir p with
          | .error e =>
            .error ("unshare mounts:: failed to remove directory from host: " ++ e)
          | .ok _ => .ok ()
        | some false => .ok ()
        | none => .ok ()
      match removal with
      | .error e => ([p], .error e)
      | .ok _ =>
        let r := do_unmount env rest
        (p :: r.1, r.2)

/-- Whether one teardown iteration for path p would fully succeed in
environment env: the unmount succeeds and, when the path is still a directory,
so does its removal. -/
def unmount_step_ok (env : UnmountEnv) (p : String) : Prop :=
  env.umount p = .ok () ∧ (env.metadata p = some true → env.remove_dir p = .ok ())

instance (env : UnmountEnv) (p : String) : Decidable (unmount_step_ok env p) := by
  unfold unmount_step_ok; infer_instance

/-- The outcome of one teardown iteration for a single path, exactly as the
loop body of do_unmount computes it: unmount the path and, when it is a
directory that still exists, remove it; the first failure is returned with its
context string. -/
def unmount_step (env : UnmountEnv) (p : String) : Except String Unit :=
  match env.umount p with
  | .error e => .error ("unshare mounts: " ++ e)
  | .ok _ =>
    match env.metadata p with
    | some true =>
      match env.remove_dir p with
      | .error e =>
        .error ("unshare mounts:: failed to remove directory from host: " ++ e)
      | .ok _ => .ok ()
    | some false => .ok ()
    | none => .ok ()

/-- agent::CreateContainerRequest, restricted to the two collections this code
appends to (storages, and the Mounts of the embedded OCI spec). -/
structure CreateContainerRequest where
  storages : List Storage
  oci_mounts : List Mount
deriving DecidableEq

/-- do_append_storage_and_mounts in utils.rs: push a clone of every cached
storage and every cached mount onto the request; the caches are only read. -/
def do_append_storage_and_mounts (st : PipelineState) (req : CreateContainerRequest) :
    PipelineState × CreateContainerRequest :=
  (st,
   { req with storages := req.storages ++ st.storage_info
              oci_mounts := req.oci_mounts ++ st.oci_mounts_info })

/-- Modelled from the spec: SharedFsRecord (vm/virtio_fs.rs is not part of the
reviewed sources) - sidecar process identity with 0 meaning not running, and
the mount tag. -/
structure SharedFs where
  pid : Nat
  mount_tag : String
deriving DecidableEq

/-- SharedFs::default(): not running, empty tag. -/
def SharedFs.default : SharedFs := { pid := 0, mount_tag := "" }

/-- Environment of external effects used when stopping a VM: the result of
shutdown_virtiofsd and the result of the hypervisor stop_vm RPC. -/
structure StopEnv where
  shutdown_virtiofsd : Except String Unit
  stop_vm : Except String Unit

/-- Observable outcome of stopping a VM: whether the sidecar shutdown was
attempted, whether the hypervisor stop was attempted, and the returned result. -/
structure StopOutcome where
  sidecar_attempted : Bool
  stop_vm_attempted : Bool
  result : Except String Unit
deriving DecidableEq

/-- stop_test_vm in clh.rs: when the recorded sidecar pid is positive, shut the
sidecar down first, propagating its failure with the question-mark operator;
then stop the hypervisor. -/
def clh_stop_test_vm (env : StopEnv) (fs_info : SharedFs) : StopOutcome :=
  if fs_info.pid > 0 then
    match env.shutdown_virtiofsd with
    | .error e => { sidecar_attempted := true, stop_vm_attempted := false, result := .error e }
    | .ok _ =>
      match env.stop_vm with
      | .error e =>
        { sidecar_attempted := true, stop_vm_attempted := true
          result := .error ("clh::stop vm: " ++ e) }
      | .ok _ => { sidecar_attempted := true, stop_vm_attempted := true, result := .ok () }
  else
    match env.stop_vm with
    | .error e =>
      { sidecar_attempted := false, stop_vm_attempted := true
        result := .error ("clh::stop vm: " ++ e) }
    | .ok _ => { sidecar_attempted := false, stop_vm_attempted := true, result := .ok () }

/-- stop_test_vm in qemu.rs: same structure as the clh variant, with the qemu
context string. -/
def qemu_stop_test_vm (env : StopEnv) (fs_info : SharedFs) : StopOutcome :=
  if fs_info.pid > 0 then
    match env.shutdown_virtiofsd with
    | .error e => { sidecar_attempted := true, stop_vm_attempted := false, result := .error e }
    | .ok _ =>
      match env.stop_vm with
      | .error e =>
        { sidecar_attempted := true, stop_vm_attempted := true
          result := .error ("qemu::stop vm: " ++ e) }
      | .ok _ => { sidecar_attempted := true, stop_vm_attempted := true, result := .ok () }
  else
    match env.stop_vm with
    | .error e =>
      { sidecar_attempted := false, stop_vm_attempted := true
        result := .error ("qemu::stop vm: " ++ e) }
    | .ok _ => { sidecar_attempted := false, stop_vm_attempted := true, result := .ok () }

/-- The hypervisor configuration fields read by the boot helpers:
boot_info.image and boot_info.vm_rootfs_driver. -/
structure HypervisorConfigM where
  image : String
  vm_rootfs_driver : String
deriving DecidableEq

/-- Observable boot-time actions: device attachments issued through the device
manager, the virtio-fs sidecar setup, and the hypervisor start_vm RPC, in the
order the calls are issued. -/
inductive BootEvent where
  | attach_vsock (guest_cid : Nat)
  | attach_hybrid_vsock (guest_cid : Nat) (uds_path : String)
  | attach_block_rootfs (path : String) (readonly : Bool)
  | setup_shared_fs
  | start_vm
deriving DecidableEq

/-- Environment of external effects used by setup_test_vm in clh.rs/qemu.rs:
configuration load and lookup, the hypervisor prepare/start RPCs, device
manager construction, the device attach calls issued during boot, the
capability query and sidecar setup, and the agent socket query. -/
structure BootEnv where
  load_config : Except String Unit
  hypervisor_config : Option HypervisorConfigM
  prepare_vm : Except String Unit
  new_device_manager : Except String Unit
  attach_vsock : Except String Unit
  attach_block : Except String Unit
  capabilities : Except String Bool
  setup_virtio_fs : Except String SharedFs
  start_vm : Except String Unit
  get_agent_socket : Except String String

/-- The TestVm structure returned by a successful boot, restricted to the
fields the claims observe. -/
structure TestVmM where
  hypervisor_name : String
  socket_addr : String
  is_hybrid_vsock : Bool
  shared_fs_info : SharedFs
deriving DecidableEq

/-- setup_test_vm in clh.rs: load and look up the configuration, prepare the
VM, build the device manager, set up virtio-fs when the hypervisor advertises
filesystem sharing, start the VM and read the agent socket.  No device attach
call is issued (add_hvsock_device exists in the file but is dead code); the
returned TestVm records hybrid-vsock transport.  The first component is the
trace of boot events in call order. -/
def clh_setup_test_vm (env : BootEnv) : List BootEvent × Except String TestVmM :=
  match env.load_config with
  | .error e => ([], .error e)
  | .ok _ =>
    match env.hypervisor_config with
    | none => ([], .error "clh: failed to get hypervisor config")
    | some _ =>
      match env.prepare_vm with
      | .error e => ([], .error ("clh: prepare test vm: " ++ e))
      | .ok _ =>
        match env.new_device_manager with
        | .error e => ([], .error ("clh::failed to create device manager: " ++ e))
        | .ok _ =>
          match env.capabilities with
          | .error e => ([], .error e)
          | .ok fs_sharing =>
            let shared : List BootEvent × Except String SharedFs :=
              if fs_sharing then
                match env.setup_virtio_fs with
                | .error e => ([BootEvent.setup_shared_fs], .error e)
                | .ok sfs => ([BootEvent.setup_shared_fs], .ok sfs)
              else ([], .ok SharedFs.default)
            match shared with
            | (evs, .error e) => (evs, .error e)
            | (evs, .ok sfs) =>
              match env.start_vm with
              | .error e => (evs ++ [BootEvent.start_vm], .error ("clh::start vm: " ++ e))
              | .ok _ =>
                match env.get_agent_socket with
                | .error e =>
                  (evs ++ [BootEvent.start_vm],
                   .error ("clh::get agent socket path: " ++ e))
                | .ok addr =>
                  (evs ++ [BootEvent.start_vm],
                   .ok { hypervisor_name := "clh", socket_addr := addr
                         is_hybrid_vsock := true, shared_fs_info := sfs })

/-- setup_test_vm in qemu.rs: load and look up the configuration, prepare the
VM, build the device manager, attach a vsock device with the wildcard guest
CID, attach the configured rootfs image as a read-only block device when the
image path is non-empty, set up virtio-fs when supported, start the VM, and
return the agent socket with the fixed agent port appended.  The first
component is the trace of boot events in call order. -/
def qemu_setup_test_vm (env : BootEnv) : List BootEvent × Except String TestVmM :=
  match env.load_config with
  | .error e => ([], .error e)
  | .ok _ =>
    match env.hypervisor_config with
    | none => ([], .error "qemu: failed to get hypervisor config")
    | some cfg =>
      match env.prepare_vm with
      | .error e => ([], .error ("qemu::prepare test vm: " ++ e))
      | .ok _ =>
        match env.new_device_manager with
        | .error e => ([], .error ("qemu::failed to create device manager: " ++ e))
        | .ok _ =>
          match env.attach_vsock with
          | .error e =>
            ([BootEvent.attach_vsock VMADDR_CID_ANY],
             .error ("qemu::adding vsock device: " ++ e))
          | .ok _ =>
            let evs0 := [BootEvent.attach_vsock VMADDR_CID_ANY]
            let rootfs : List BootEvent × Except String Unit :=
              if cfg.image.isEmpty then ([], .ok ())
              else
                match env.attach_block with
                | .error e =>
                  ([BootEvent.attach_block_rootfs cfg.image true],
                   .error ("qemu::adding vm rootfs: " ++ e))
                | .ok _ => ([BootEvent.attach_block_rootfs cfg.image true], .ok ())
            match rootfs with
            | (evs1, .error e) => (evs0 ++ evs1, .error e)
            | (evs1, .ok _) =>
              match env.capabilities with
              | .error e => (evs0 ++ evs1, .error e)
              | .ok fs_sharing =>
                let shared : List BootEvent × Except String SharedFs :=
                  if fs_sharing then
                    match env.setup_virtio_fs with
                    | .error e => ([BootEvent.setup_shared_fs], .error e)
                    | .ok sfs => ([BootEvent.setup_shared_fs], .ok sfs)
                  else ([], .ok SharedFs.default)
                match shared with
                | (evs2, .error e) => (evs0 ++ evs1 ++ evs2, .error e)
                | (evs2, .ok sfs) =>
                  match env.start_vm with
                  | .error e =>
                    (evs0 ++ evs1 ++ evs2 ++ [BootEvent.start_vm],
                     .error ("qemu::start vm: " ++ e))
                  | .ok _ =>
                    match env.get_agent_socket with
                    | .error e =>
                      (evs0 ++ evs1 ++ evs2 ++ [BootEvent.start_vm],
                       .error ("get agent socket path: " ++ e))
                    | .ok addr =>
                      (evs0 ++ evs1 ++ evs2 ++ [BootEvent.start_vm],
                       .ok { hypervisor_name := "qemu", socket_addr := addr ++ ":1024"
                             is_hybrid_vsock := false, shared_fs_info := sfs })

/-- The boot events issued strictly before the start_vm RPC. -/
def eventsBeforeStart (evs : List BootEvent) : List BootEvent :=
  evs.takeWhile (fun e => !(e == BootEvent.start_vm))

/-- Relation between a cached Mount and the Storage descriptor it was derived
from: the mount carries the descriptor's filesystem type and options (both the
block and the shared handler copy exactly these two fields). -/
def mount_from_storage (m : Mount) (s : Storage) : Prop :=
  m.type_ = s.fstype ∧ m.options = s.options

/-- b extends a on the right: b is a with zero or more entries appended. -/
def listGrows {α : Type} (a b : List α) : Prop := ∃ t, b = a ++ t

/-- Concrete stat table for witnesses: one block device, one directory, one
regular file. -/
def statW : String → Option FileStat := fun s =>
  if s = "/dev/loop7" then some { sflag := FileKind.S_IFBLK, rdev_major := 7, rdev_minor := 3 }
  else if s = "/var/lib/testdata" then
    some { sflag := FileKind.S_IFDIR, rdev_major := 0, rdev_minor := 0 }
  else if s = "/tmp/afile" then
    some { sflag := FileKind.S_IFREG, rdev_major := 0, rdev_minor := 0 }
  else none

/-- Concrete pipeline environment for witnesses: the attach oracle returns a
block device with a pci path. -/
def envW : VmEnv :=
  { stat := statW
    block_driver := "virtio-blk"
    attach := fun _ _ =>
      .ok (DeviceType.Block { device_id := "dev1", config := { pci_path := some "02/01" } })
    rand_hex := fun _ => "00f1a2"
    bind_mount := fun _ => .ok () }

/-- Variant of envW whose attach oracle returns a non-block device. -/
def envWother : VmEnv :=
  { envW with attach := fun _ _ => .ok (DeviceType.OtherDev "network") }

/-- A block-driver descriptor over the witness block device. -/
def volBlk : Storage :=
  { driver := "blk", driver_options := [], source := "/dev/loop7"
    fstype := "ext4", options := ["rw"], mount_point := "/mnt/data" }

/-- A shared-directory descriptor over the witness directory. -/
def volShared : Storage :=
  { driver := "virtio-fs", driver_options := [], source := "/var/lib/testdata"
    fstype := "virtiofs", options := ["nodev"], mount_point := "/mnt/share" }

/-- A block-driver descriptor whose source is a regular file. -/
def volRegular : Storage :=
  { driver := "blk", driver_options := [], source := "/tmp/afile"
    fstype := "ext4", options := [], mount_point := "/mnt/bad" }

/-- A descriptor with an unsupported driver kind. -/
def volBad : Storage :=
  { driver := "nvdimm", driver_options := [], source := "/dev/loop7"
    fstype := "ext4", options := [], mount_point := "/mnt/nv" }

/-- Teardown environment whose first witness path fails to unmount. -/
def unmountEnvFail : UnmountEnv :=
  { umount := fun p => if p = "/host/a" then .error "device busy" else .ok ()
    metadata := fun _ => some true
    remove_dir := fun _ => .ok () }

/-- Teardown environment where every operation succeeds. -/
def unmountEnvOk : UnmountEnv :=
  { umount := fun _ => .ok (), metadata := fun _ => some true, remove_dir := fun _ => .ok () }

/-- Stop environment whose sidecar shutdown fails while the hypervisor stop
would succeed. -/
def stopEnvFail : StopEnv := { shutdown_virtiofsd := .error "sidecar kill failed", stop_vm := .ok () }

/-- Stop environment where both steps succeed. -/
def stopEnvOk : StopEnv := { shutdown_virtiofsd := .ok (), stop_vm := .ok () }

/-- A running sidecar record. -/
def sharedFsW : SharedFs := { pid := 42, mount_tag := "kataShared" }

/-- Witness hypervisor configuration with a non-empty rootfs image. -/
def cfgW : HypervisorConfigM := { image := "/opt/kata/kata-containers.img", vm_rootfs_driver := "virtio-blk" }

/-- Boot environment for witnesses: every external call succeeds,
filesystem sharing is supported, and the rootfs image is configured. -/
def bootEnvW : BootEnv :=
  { load_config := .ok ()
    hypervisor_config := some cfgW
    prepare_vm := .ok ()
    new_device_manager := .ok ()
    attach_vsock := .ok ()
    attach_block := .ok ()
    capabilities := .ok true
    setup_virtio_fs := .ok sharedFsW
    start_vm := .ok ()
    get_agent_socket := .ok "vsock://3" }

/-- The TestVm a clh boot under bootEnvW returns. -/
def vmClhW : TestVmM :=
  { hypervisor_name := "clh", socket_addr := "vsock://3"
    is_hybrid_vsock := true, shared_fs_info := sharedFsW }

/-- The TestVm a qemu boot under bootEnvW returns. -/
def vmQemuW : TestVmM :=
  { hypervisor_name := "qemu", socket_addr := "vsock://3:1024"
    is_hybrid_vsock := false, shared_fs_info := sharedFsW }

/-! Theorems. -/

/-- C9: to_kernel_string returns an error exactly when the key is empty, with
a distinct message when both key and value are empty; a non-empty key with an
empty value yields the key alone, and two non-empty arguments yield the
concatenation key, equals sign, value. -/
theorem claim_C9 (key val : String) :
    (key = "" → val = "" → to_kernel_string key val = .error "Empty key and value")
    ∧ (key = "" → val ≠ "" → to_kernel_string key val = .error "Empty key")
    ∧ (key ≠ "" → val = "" → to_kernel_string key val = .ok key)
    ∧ (key ≠ "" → val ≠ "" → to_kernel_string key val = .ok (key ++ "=" ++ val))
    ∧ ((∃ e, to_kernel_string key val = .error e) ↔ key = "") := by
  by_cases hk : key = "" <;> by_cases hv : val = "" <;>
    simp [to_kernel_string, hk, hv, String.isEmpty_iff]

/-- C9 witness: concrete evaluations of both successful shapes. -/
theorem claim_C9_witness :
    to_kernel_string "console" "ttyS0" = .ok "console=ttyS0"
    ∧ to_kernel_string "quiet" "" = .ok "quiet" := by
  constructor
  · exact (claim_C9 "console" "ttyS0").2.2.2.1 (by decide) (by decide)
  · exact (claim_C9 "quiet" "").2.2.1 (by decide) rfl

/-- C7: draining the caches into a creation request copies every cached
storage and mount in cache order without mutating the caches; a second drain
with no intervening inject appends the same records a second time. -/
theorem claim_C7 (st : PipelineState) (req : CreateContainerRequest) :
    (do_append_storage_and_mounts st req).1 = st
    ∧ (do_append_storage_and_mounts st req).2.storages = req.storages ++ st.storage_info
    ∧ (do_append_storage_and_mounts st req).2.oci_mounts = req.oci_mounts ++ st.oci_mounts_info
    ∧ (do_append_storage_and_mounts (do_append_storage_and_mounts st req).1
        (do_append_storage_and_mounts st req).2).1 = st
    ∧ (do_append_storage_and_mounts (do_append_storage_and_mounts st req).1
        (do_append_storage_and_mounts st req).2).2.storages
        = req.storages ++ st.storage_info ++ st.storage_info
    ∧ (do_append_storage_and_mounts (do_append_storage_and_mounts st req).1
        (do_append_storage_and_mounts st req).2).2.oci_mounts
        = req.oci_mounts ++ st.oci_mounts_info ++ st.oci_mounts_info := by
  simp [do_append_storage_and_mounts]

/-- C10: when the device-manager attach for a block descriptor returns a
non-block device, handle_block_volume still succeeds, the cached storage keeps
the original host source, the guest path and container destination are built
from an empty device identifier, and one entry is appended to each cache. -/
theorem claim_C10 (env : VmEnv) (st : PipelineState) (vol : Storage)
    (fstat : FileStat) (tag : String)
    (hstat : env.stat vol.source = some fstat)
    (hblk : fstat.sflag = FileKind.S_IFBLK)
    (hatt : env.attach st.attach_calls (DeviceConfig.BlockCfg
      { major := (fstat.rdev_major : Int), minor := (fstat.rdev_minor : Int)
        driver_option := env.block_driver, path_on_host := "", is_readonly := false })
      = .ok (DeviceType.OtherDev tag)) :
    handle_block_volume env st vol =
      ({ st with
          attach_calls := st.attach_calls + 1
          storage_info := st.storage_info
            ++ [{ vol with mount_point := generate_path GUEST_BASE_PATH "" TEST_BLK_APPEND }]
          oci_mounts_info := st.oci_mounts_info
            ++ [{ destination := generate_path CNT_MNT_BASE "" TEST_BLK_APPEND
                  type_ := vol.fstype
                  source := generate_path GUEST_BASE_PATH "" TEST_BLK_APPEND
                  options := vol.options }] }, .ok ()) := by
  simp [handle_block_volume, hstat, hblk, hatt]

/-- C10 witness: the non-block attach result on the witness block source. -/
theorem claim_C10_witness :
    handle_block_volume envWother initState volBlk =
      ({ initState with
          attach_calls := 1
          storage_info := [{ volBlk with mount_point := generate_path GUEST_BASE_PATH "" TEST_BLK_APPEND }]
          oci_mounts_info :=
            [{ destination := generate_path CNT_MNT_BASE "" TEST_BLK_APPEND
               type_ := volBlk.fstype
               source := generate_path GUEST_BASE_PATH "" TEST_BLK_APPEND
               options := volBlk.options }] }, .ok ()) := by
  have h := claim_C10 envWother initState volBlk
    { sflag := FileKind.S_IFBLK, rdev_major := 7, rdev_minor := 3 } "network"
    (by decide) rfl (by decide)
  simpa [initState] using h

/-- C5: a block descriptor whose source does not stat as a block special
device makes handle_block_volume, and inject on that descriptor, fail with an
error naming the source as not a block special file, leaving every cache
untouched. -/
theorem claim_C5 (env : VmEnv) (st : PipelineState) (vol : Storage) (hsp : String)
    (hnb : ∀ f, env.stat vol.source = some f → f.sflag ≠ FileKind.S_IFBLK)
    (hdrv : vol.driver = "blk") :
    handle_block_volume env st vol
      = (st, .error ("Not a block special file: " ++ vol.source))
    ∧ do_handle_storage env hsp st [vol]
      = (st, .error ("Not a block special file: " ++ vol.source)) := by
  have hb : handle_block_volume env st vol
      = (st, .error ("Not a block special file: " ++ vol.source)) := by
    cases hstat : env.stat vol.source with
    | none => simp [handle_block_volume, hstat]
    | some f => simp [handle_block_volume, hstat, hnb f hstat]
  exact ⟨hb, by simp [do_handle_storage, hdrv, hb]⟩

/-- C5 witness: injecting a regular file under the blk driver fails and the
caches stay empty. -/
theorem claim_C5_witness :
    handle_block_volume envW initState volRegular
      = (initState, .error ("Not a block special file: " ++ volRegular.source))
    ∧ do_handle_storage envW "/run/host/shared" initState [volRegular]
      = (initState, .error ("Not a block special file: " ++ volRegular.source)) := by
  refine claim_C5 envW initState volRegular "/run/host/shared" ?_ rfl
  intro f hf
  have h0 : envW.stat volRegular.source
      = some { sflag := FileKind.S_IFREG, rdev_major := 0, rdev_minor := 0 } := by decide
  rw [h0] at hf
  injection hf with hf2
  rw [← hf2]
  decide

/-- C1: a block descriptor whose source stats as a block special device and
whose attach returns a block device with a pci path makes handle_block_volume,
and inject on that descriptor, succeed, appending exactly one storage whose
source is rewritten to the pci path and exactly one mount whose destination is
the container-mount base, the device identifier and the fixed suffix joined by
slashes. -/
theorem claim_C1 (env : VmEnv) (st : PipelineState) (vol : Storage) (hsp : String)
    (fstat : FileStat) (dev_id pci : String)
    (hstat : env.stat vol.source = some fstat)
    (hblk : fstat.sflag = FileKind.S_IFBLK)
    (hatt : env.attach st.attach_calls (DeviceConfig.BlockCfg
      { major := (fstat.rdev_major : Int), minor := (fstat.rdev_minor : Int)
        driver_option := env.block_driver, path_on_host := "", is_readonly := false })
      = .ok (DeviceType.Block { device_id := dev_id, config := { pci_path := some pci } }))
    (hdrv : vol.driver = "blk") :
    handle_block_volume env st vol =
      ({ st with
          attach_calls := st.attach_calls + 1
          storage_info := st.storage_info
            ++ [{ vol with
                    source := pci
                    mount_point := generate_path GUEST_BASE_PATH dev_id TEST_BLK_APPEND }]
          oci_mounts_info := st.oci_mounts_info
            ++ [{ destination := generate_path CNT_MNT_BASE dev_id TEST_BLK_APPEND
                  type_ := vol.fstype
                  source := generate_path GUEST_BASE_PATH dev_id TEST_BLK_APPEND
                  options := vol.options }] }, .ok ())
    ∧ do_handle_storage env hsp st [vol] = handle_block_volume env st vol
    ∧ generate_path CNT_MNT_BASE dev_id TEST_BLK_APPEND
        = "/tmp/foo" ++ "/" ++ dev_id ++ "/" ++ "test-blk-vol" := by
  have hb : handle_block_volume env st vol =
      ({ st with
          attach_calls := st.attach_calls + 1
          storage_info := st.storage_info
            ++ [{ vol with
                    source := pci
                    mount_point := generate_path GUEST_BASE_PATH dev_id TEST_BLK_APPEND }]
          oci_mounts_info := st.oci_mounts_info
            ++ [{ destination := generate_path CNT_MNT_BASE dev_id TEST_BLK_APPEND
                  type_ := vol.fstype
                  source := generate_path GUEST_BASE_PATH dev_id TEST_BLK_APPEND
                  options := vol.options }] }, .ok ()) := by
    simp [handle_block_volume, hstat, hblk, hatt]
  refine ⟨hb, ?_, rfl⟩
  simp [do_handle_storage, hdrv, hb]

/-- C1 witness: the witness block device is injected, its source is rewritten
to the pci path and the caches gain exactly one entry each. -/
theorem claim_C1_witness :
    handle_block_volume envW initState volBlk =
      ({ initState with
          attach_calls := 1
          storage_info := [{ volBlk with
            source := "02/01"
            mount_point := generate_path GUEST_BASE_PATH "dev1" TEST_BLK_APPEND }]
          oci_mounts_info :=
            [{ destination := generate_path CNT_MNT_BASE "dev1" TEST_BLK_APPEND
               type_ := volBlk.fstype
               source := generate_path GUEST_BASE_PATH "dev1" TEST_BLK_APPEND
               options := volBlk.options }] }, .ok ())
    ∧ generate_path CNT_MNT_BASE "dev1" TEST_BLK_APPEND
        = "/tmp/foo" ++ "/" ++ "dev1" ++ "/" ++ "test-blk-vol" := by
  have h := claim_C1 envW initState volBlk "/run/host/shared"
    { sflag := FileKind.S_IFBLK, rdev_major := 7, rdev_minor := 3 } "dev1" "02/01"
    (by decide) rfl (by decide) rfl
  exact ⟨by simpa [initState] using h.1, h.2.2⟩

/-- C2 counterexample: with two cached paths whose first unmount fails,
teardown never attempts the second path and reports the first error, so it
does not attempt every path and does not collect per-path errors. -/
theorem claim_C2_counterexample :
    (do_unmount unmountEnvFail ["/host/a", "/host/b"]).1 = ["/host/a"]
    ∧ (do_unmount unmountEnvFail ["/host/a", "/host/b"]).1 ≠ ["/host/a", "/host/b"]
    ∧ (do_unmount unmountEnvFail ["/host/a", "/host/b"]).2
        = .error "unshare mounts: device busy" := by
  refine ⟨by decide, by decide, by decide⟩

/-- A per-path step that fully succeeds makes one do_unmount iteration
recurse into the rest of the list, recording the path as attempted. -/
theorem do_unmount_cons_ok (env : UnmountEnv) (p : String) (rest : List String)
    (h : unmount_step_ok env p) :
    do_unmount env (p :: rest)
      = (p :: (do_unmount env rest).1, (do_unmount env rest).2) := by
  obtain ⟨hu, hr⟩ := h
  cases hm : env.metadata p with
  | none => simp [do_unmount, hu, hm]
  | some b =>
    cases b with
    | false => simp [do_unmount, hu, hm]
    | true => simp [do_unmount, hu, hm, hr hm]

/-- A per-path step that fails makes one do_unmount iteration stop at once:
only this path is recorded as attempted, the rest of the list is never
touched, and the iteration result is exactly the failing step error. -/
theorem do_unmount_cons_fail (env : UnmountEnv) (p : String) (rest : List String)
    (h : ¬ unmount_step_ok env p) :
    do_unmount env (p :: rest) = ([p], unmount_step env p)
    ∧ ∃ e, unmount_step env p = .error e := by
  cases hu : env.umount p with
  | error e =>
    exact ⟨by simp [do_unmount, unmount_step, hu],
      ⟨"unshare mounts: " ++ e, by simp [unmount_step, hu]⟩⟩
  | ok u =>
    cases u
    have h2 : ¬ (env.metadata p = some true → env.remove_dir p = .ok ()) := by
      intro hc; exact h ⟨hu, hc⟩
    push_neg at h2
    obtain ⟨hmd, hrd⟩ := h2
    cases hr : env.remove_dir p with
    | ok u2 => cases u2; exact absurd hr hrd
    | error e =>
      exact ⟨by simp [do_unmount, unmount_step, hu, hmd, hr],
        ⟨"unshare mounts:: failed to remove directory from host: " ++ e,
         by simp [unmount_step, hu, hmd, hr]⟩⟩

/-- C2 amended: teardown attempts the cached paths in order and
short-circuits at the first per-path failure.  When every per-path unmount
(and, for a path that is still a directory, removal) succeeds, every path is
attempted and the run succeeds.  Otherwise, writing the cache as a wholly
succeeding prefix followed by the first failing path and the remaining paths,
exactly the prefix plus the failing path is attempted, that step error is
returned immediately, and the remaining paths are never attempted. -/
theorem claim_C2_amended (env : UnmountEnv) (paths pre suf : List String) (p : String) :
    ((∀ q ∈ paths, unmount_step_ok env q) → do_unmount env paths = (paths, .ok ()))
    ∧ ((∀ q ∈ pre, unmount_step_ok env q) → ¬ unmount_step_ok env p →
        do_unmount env (pre ++ p :: suf) = (pre ++ [p], unmount_step env p)
        ∧ ∃ e, unmount_step env p = .error e) := by
  constructor
  · induction paths with
    | nil => intro _; rfl
    | cons q rest ih =>
      intro hall
      have h1 := do_unmount_cons_ok env q rest (hall q (by simp))
      have h2 := ih (fun r hr => hall r (by simp [hr]))
      rw [h1, h2]
  · induction pre with
    | nil =>
      intro _ hp
      simpa using do_unmount_cons_fail env p suf hp
    | cons q pre2 ih =>
      intro hpre hp
      have hq := hpre q (by simp)
      have hrec := ih (fun r hr => hpre r (by simp [hr])) hp
      refine ⟨?_, hrec.2⟩
      rw [List.cons_append, do_unmount_cons_ok env q (pre2 ++ p :: suf) hq, hrec.1]
      simp

/-- C2 amended witness: with an all-succeeding environment both cached paths
are attempted with success, and with a failing middle path only the
succeeding prefix plus the failing path is attempted while the trailing path
is never attempted and the failing step error is returned. -/
theorem claim_C2_amended_witness :
    do_unmount unmountEnvOk ["/host/a", "/host/b"] = (["/host/a", "/host/b"], .ok ())
    ∧ do_unmount unmountEnvFail (["/host/b"] ++ "/host/a" :: ["/host/c"])
        = (["/host/b"] ++ ["/host/a"], unmount_step unmountEnvFail "/host/a")
    ∧ unmount_step unmountEnvFail "/host/a" = .error "unshare mounts: device busy" := by
  have h1 := (claim_C2_amended unmountEnvOk ["/host/a", "/host/b"] [] [] "/x").1
    (by intro q hq; exact ⟨rfl, fun _ => rfl⟩)
  have h2 := (claim_C2_amended unmountEnvFail ["/y"] ["/host/b"] ["/host/c"] "/host/a").2
    (by intro q hq; simp at hq; subst hq; decide) (by decide)
  exact ⟨h1, h2.1, by decide⟩

/-- C3 counterexample: with a running sidecar whose shutdown fails, the clh
and qemu stop paths never attempt the hypervisor stop. -/
theorem claim_C3_counterexample :
    (clh_stop_test_vm stopEnvFail sharedFsW).stop_vm_attempted = false
    ∧ (clh_stop_test_vm stopEnvFail sharedFsW).result = .error "sidecar kill failed"
    ∧ (qemu_stop_test_vm stopEnvFail sharedFsW).stop_vm_attempted = false := by
  refine ⟨by decide, by decide, by decide⟩

/-- C3 amended: VM shutdown stops the shared-fs sidecar exactly when its
recorded process identity is nonzero; when the sidecar shutdown fails its
error is returned and the hypervisor stop is not attempted; in every other
case the hypervisor stop is attempted.  This holds for both backends. -/
theorem claim_C3_amended (env : StopEnv) (fs : SharedFs) :
    ((clh_stop_test_vm env fs).sidecar_attempted = true ↔ fs.pid ≠ 0)
    ∧ (fs.pid ≠ 0 → ∀ e, env.shutdown_virtiofsd = .error e →
        (clh_stop_test_vm env fs).stop_vm_attempted = false
        ∧ (clh_stop_test_vm env fs).result = .error e)
    ∧ (fs.pid = 0 ∨ env.shutdown_virtiofsd = .ok () →
        (clh_stop_test_vm env fs).stop_vm_attempted = true)
    ∧ ((qemu_stop_test_vm env fs).sidecar_attempted = true ↔ fs.pid ≠ 0)
    ∧ (fs.pid ≠ 0 → ∀ e, env.shutdown_virtiofsd = .error e →
        (qemu_stop_test_vm env fs).stop_vm_attempted = false
        ∧ (qemu_stop_test_vm env fs).result = .error e)
    ∧ (fs.pid = 0 ∨ env.shutdown_virtiofsd = .ok () →
        (qemu_stop_test_vm env fs).stop_vm_attempted = true) := by
  have hpos : fs.pid > 0 ↔ fs.pid ≠ 0 := Nat.pos_iff_ne_zero
  by_cases hp : fs.pid = 0
  · have hnp : ¬ fs.pid > 0 := by omega
    refine ⟨?_, ?_, ?_, ?_, ?_, ?_⟩ <;>
      cases hs : env.stop_vm <;>
        simp [clh_stop_test_vm, qemu_stop_test_vm, hnp, hp, hs]
  · have hgt : fs.pid > 0 := by omega
    cases hsd : env.shutdown_virtiofsd with
    | error e0 =>
      refine ⟨?_, ?_, ?_, ?_, ?_, ?_⟩ <;>
        simp [clh_stop_test_vm, qemu_stop_test_vm, hgt, hp, hsd]
    | ok u =>
      cases u
      refine ⟨?_, ?_, ?_, ?_, ?_, ?_⟩ <;>
        cases hs : env.stop_vm <;>
          simp [clh_stop_test_vm, qemu_stop_test_vm, hgt, hp, hsd, hs]

/-- C3 amended witness: a running sidecar with a succeeding shutdown leads to
an attempted hypervisor stop on both backends. -/
theorem claim_C3_amended_witness :
    (clh_stop_test_vm stopEnvOk sharedFsW).sidecar_attempted = true
    ∧ (clh_stop_test_vm stopEnvOk sharedFsW).stop_vm_attempted = true
    ∧ (qemu_stop_test_vm stopEnvOk sharedFsW).stop_vm_attempted = true := by
  have h := claim_C3_amended stopEnvOk sharedFsW
  exact ⟨h.1.mpr (by decide), h.2.2.1 (Or.inr rfl), h.2.2.2.2.2 (Or.inr rfl)⟩

theorem listGrows_of_eq {α : Type} {a b : List α} (h : b = a) : listGrows a b :=
  ⟨[], by simp [h]⟩

theorem listGrows_append_of_eq {α : Type} {a b : List α} (t : List α) (h : b = a ++ t) :
    listGrows a b := ⟨t, h⟩

theorem listGrows_trans {α : Type} {a b c : List α} :
    listGrows a b → listGrows b c → listGrows a c
  | ⟨t1, h1⟩, ⟨t2, h2⟩ => ⟨t1 ++ t2, by rw [h2, h1, List.append_assoc]⟩

/-- Case description of handle_block_volume: the pending-unmount cache is
never touched; on success exactly one storage and one mount (derived from the
descriptor) are appended; on error both caches are unchanged. -/
theorem handle_block_volume_cases (env : VmEnv) (st : PipelineState) (vol : Storage) :
    (handle_block_volume env st vol).1.unmount_host_info = st.unmount_host_info
    ∧ (((handle_block_volume env st vol).2 = .ok ()
         ∧ ∃ v m, (handle_block_volume env st vol).1.storage_info = st.storage_info ++ [v]
             ∧ (handle_block_volume env st vol).1.oci_mounts_info = st.oci_mounts_info ++ [m]
             ∧ mount_from_storage m vol)
      ∨ ((∃ e, (handle_block_volume env st vol).2 = .error e)
         ∧ (handle_block_volume env st vol).1.storage_info = st.storage_info
         ∧ (handle_block_volume env st vol).1.oci_mounts_info = st.oci_mounts_info)) := by
  cases h1 : env.stat vol.source with
  | none => simp [handle_block_volume, h1]
  | some fstat =>
    by_cases h2 : fstat.sflag = FileKind.S_IFBLK
    · cases h3 : env.attach st.attach_calls (DeviceConfig.BlockCfg
        { major := (fstat.rdev_major : Int), minor := (fstat.rdev_minor : Int)
          driver_option := env.block_driver, path_on_host := "", is_readonly := false }) with
      | error e => simp [handle_block_volume, h1, h2, h3]
      | ok dev =>
        cases dev with
        | OtherDev tag => simp [handle_block_volume, h1, h2, h3, mount_from_storage]
        | Block d =>
          cases hp : d.config.pci_path with
          | none => simp [handle_block_volume, h1, h2, h3, hp]
          | some p => simp [handle_block_volume, h1, h2, h3, hp, mount_from_storage]
    · simp [handle_block_volume, h1, h2]

/-- Case description of handle_shared_volume: the storage cache is never
touched; on success exactly one mount (derived from the descriptor) and one
pending-unmount path are appended; on error both are unchanged. -/
theorem handle_shared_volume_cases (env : VmEnv) (st : PipelineState) (vol : Storage)
    (hsp : String) :
    (handle_shared_volume env st vol hsp).1.storage_info = st.storage_info
    ∧ (((handle_shared_volume env st vol hsp).2 = .ok ()
         ∧ ∃ m u, (handle_shared_volume env st vol hsp).1.oci_mounts_info
               = st.oci_mounts_info ++ [m]
             ∧ (handle_shared_volume env st vol hsp).1.unmount_host_info
               = st.unmount_host_info ++ [u]
             ∧ mount_from_storage m vol)
      ∨ ((∃ e, (handle_shared_volume env st vol hsp).2 = .error e)
         ∧ (handle_shared_volume env st vol hsp).1.oci_mounts_info = st.oci_mounts_info
         ∧ (handle_shared_volume env st vol hsp).1.unmount_host_info
           = st.unmount_host_info)) := by
  cases h1 : env.stat vol.source with
  | none => simp [handle_shared_volume, h1]
  | some fstat =>
    by_cases h2 : fstat.sflag = FileKind.S_IFDIR
    · cases h3 : path_file_name vol.source with
      | none => simp [handle_shared_volume, h1, h2, h3]
      | some file_name =>
        cases h4 : env.bind_mount st.bind_calls with
        | error e => simp [handle_shared_volume, h1, h2, h3, h4]
        | ok u => simp [handle_shared_volume, h1, h2, h3, h4, mount_from_storage]
    · simp [handle_shared_volume, h1, h2]

/-- One unfolding of do_handle_storage on a non-empty list. -/
theorem do_handle_storage_cons (env : VmEnv) (hsp : String) (st : PipelineState)
    (s : Storage) (rest : List Storage) :
    do_handle_storage env hsp st (s :: rest)
      = match (if s.driver = "blk" then handle_block_volume env st s
          else if s.driver = "virtio-fs" then handle_shared_volume env st s hsp
          else (st, .error (s.driver ++ " storage type is not supported"))) with
        | (st2, .error e) => (st2, .error e)
        | (st2, .ok _) => do_handle_storage env hsp st2 rest := rfl

/-- Processing any descriptor list only appends to the three caches. -/
theorem do_handle_storage_grows (env : VmEnv) (hsp : String) :
    ∀ (l : List Storage) (st : PipelineState),
      listGrows st.storage_info (do_handle_storage env hsp st l).1.storage_info
      ∧ listGrows st.oci_mounts_info (do_handle_storage env hsp st l).1.oci_mounts_info
      ∧ listGrows st.unmount_host_info (do_handle_storage env hsp st l).1.unmount_host_info := by
  intro l
  induction l with
  | nil =>
    intro st
    exact ⟨listGrows_of_eq rfl, listGrows_of_eq rfl, listGrows_of_eq rfl⟩
  | cons s rest ih =>
    intro st
    rcases hstep : (if s.driver = "blk" then handle_block_volume env st s
        else if s.driver = "virtio-fs" then handle_shared_volume env st s hsp
        else (st, .error (s.driver ++ " storage type is not supported"))) with ⟨st2, r⟩
    have hgrow : listGrows st.storage_info st2.storage_info
        ∧ listGrows st.oci_mounts_info st2.oci_mounts_info
        ∧ listGrows st.unmount_host_info st2.unmount_host_info := by
      by_cases hb : s.driver = "blk"
      · have hc := handle_block_volume_cases env st s
        rw [hb, if_pos rfl] at hstep
        rw [hstep] at hc
        rcases hc with ⟨hu, hok | herr⟩
        · obtain ⟨v, m, hv, hm, _⟩ := hok.2
          exact ⟨listGrows_append_of_eq [v] hv, listGrows_append_of_eq [m] hm,
            listGrows_of_eq hu⟩
        · exact ⟨listGrows_of_eq herr.2.1, listGrows_of_eq herr.2.2, listGrows_of_eq hu⟩
      · by_cases hv : s.driver = "virtio-fs"
        · have hc := handle_shared_volume_cases env st s hsp
          rw [if_neg hb, hv, if_pos rfl] at hstep
          rw [hstep] at hc
          rcases hc with ⟨hs, hok | herr⟩
          · obtain ⟨m, u, hm, hu, _⟩ := hok.2
            exact ⟨listGrows_of_eq hs, listGrows_append_of_eq [m] hm,
              listGrows_append_of_eq [u] hu⟩
          · exact ⟨listGrows_of_eq hs, listGrows_of_eq herr.2.1, listGrows_of_eq herr.2.2⟩
        · rw [if_neg hb, if_neg hv] at hstep
          cases hstep
          exact ⟨listGrows_of_eq rfl, listGrows_of_eq rfl, listGrows_of_eq rfl⟩
    rw [do_handle_storage_cons, hstep]
    cases r with
    | error e => exact hgrow
    | ok u =>
      cases u
      have h2 := ih st2
      exact ⟨listGrows_trans hgrow.1 h2.1, listGrows_trans hgrow.2.1 h2.2.1,
        listGrows_trans hgrow.2.2 h2.2.2⟩

/-- A successfully processed prefix composes: processing pre followed by rest
equals processing rest from the state left by pre. -/
theorem do_handle_storage_append_of_ok (env : VmEnv) (hsp : String) :
    ∀ (pre : List Storage) (st : PipelineState),
      (do_handle_storage env hsp st pre).2 = .ok () →
      ∀ rest, do_handle_storage env hsp st (pre ++ rest)
        = do_handle_storage env hsp (do_handle_storage env hsp st pre).1 rest := by
  intro pre
  induction pre with
  | nil => intro st h rest; rfl
  | cons s pre2 ih =>
    intro st h rest
    rcases hstep : (if s.driver = "blk" then handle_block_volume env st s
        else if s.driver = "virtio-fs" then handle_shared_volume env st s hsp
        else (st, .error (s.driver ++ " storage type is not supported"))) with ⟨st2, r⟩
    rw [do_handle_storage_cons, hstep] at h
    cases r with
    | error e => simp at h
    | ok u =>
      cases u
      rw [List.cons_append, do_handle_storage_cons, hstep]
      rw [do_handle_storage_cons, hstep]
      exact ih st2 h rest

/-- C4: an unsupported driver kind in the descriptor list makes inject fail
with an error naming that kind, aborts the remaining entries, and leaves the
caches exactly as the successfully processed earlier descriptors left them
(every earlier entry remains, the caches having only grown). -/
theorem claim_C4 (env : VmEnv) (hsp : String) (st : PipelineState)
    (pre : List Storage) (vol : Storage) (rest : List Storage)
    (hpre : (do_handle_storage env hsp st pre).2 = .ok ())
    (h1 : vol.driver ≠ "blk") (h2 : vol.driver ≠ "virtio-fs") :
    do_handle_storage env hsp st (pre ++ vol :: rest)
      = ((do_handle_storage env hsp st pre).1,
         .error (vol.driver ++ " storage type is not supported"))
    ∧ listGrows st.storage_info (do_handle_storage env hsp st pre).1.storage_info
    ∧ listGrows st.oci_mounts_info (do_handle_storage env hsp st pre).1.oci_mounts_info
    ∧ listGrows st.unmount_host_info (do_handle_storage env hsp st pre).1.unmount_host_info := by
  have hg := do_handle_storage_grows env hsp pre st
  refine ⟨?_, hg.1, hg.2.1, hg.2.2⟩
  rw [do_handle_storage_append_of_ok env hsp pre st hpre (vol :: rest),
    do_handle_storage_cons, if_neg h1, if_neg h2]

/-- C4 witness: a successfully processed block descriptor followed by an
unsupported driver kind aborts with the named error while the block entry
stays cached. -/
theorem claim_C4_witness :
    do_handle_storage envW "/run/host/shared" initState ([volBlk] ++ volBad :: [volShared])
      = ((do_handle_storage envW "/run/host/shared" initState [volBlk]).1,
         .error (volBad.driver ++ " storage type is not supported"))
    ∧ listGrows initState.storage_info
        (do_handle_storage envW "/run/host/shared" initState [volBlk]).1.storage_info
    ∧ listGrows initState.oci_mounts_info
        (do_handle_storage envW "/run/host/shared" initState [volBlk]).1.oci_mounts_info
    ∧ listGrows initState.unmount_host_info
        (do_handle_storage envW "/run/host/shared" initState [volBlk]).1.unmount_host_info :=
  claim_C4 envW "/run/host/shared" initState [volBlk] volBad [volShared]
    (by decide) (by decide) (by decide)

/-- C6: a successful inject appends, in declaration order, exactly one derived
mount per descriptor to the mount cache: the new cache is the old cache plus a
list of mounts in positional correspondence with the descriptor list. -/
theorem claim_C6 (env : VmEnv) (hsp : String) :
    ∀ (l : List Storage) (st : PipelineState),
      (do_handle_storage env hsp st l).2 = .ok () →
      ∃ ms, (do_handle_storage env hsp st l).1.oci_mounts_info = st.oci_mounts_info ++ ms
        ∧ List.Forall₂ mount_from_storage ms l := by
  intro l
  induction l with
  | nil => intro st h; exact ⟨[], by simp [do_handle_storage], List.Forall₂.nil⟩
  | cons s rest ih =>
    intro st h
    rcases hstep : (if s.driver = "blk" then handle_block_volume env st s
        else if s.driver = "virtio-fs" then handle_shared_volume env st s hsp
        else (st, .error (s.driver ++ " storage type is not supported"))) with ⟨st2, r⟩
    rw [do_handle_storage_cons, hstep] at h ⊢
    cases r with
    | error e => simp at h
    | ok u =>
      cases u
      replace h : (do_handle_storage env hsp st2 rest).2 = .ok () := h
      have hm2 : ∃ m, st2.oci_mounts_info = st.oci_mounts_info ++ [m]
          ∧ mount_from_storage m s := by
        by_cases hb : s.driver = "blk"
        · have hc := handle_block_volume_cases env st s
          rw [hb, if_pos rfl] at hstep
          rw [hstep] at hc
          rcases hc.2 with hok | herr
          · obtain ⟨v, m, _, hmm, hd⟩ := hok.2
            exact ⟨m, hmm, hd⟩
          · obtain ⟨e, he⟩ := herr.1
            simp at he
        · by_cases hv : s.driver = "virtio-fs"
          · have hc := handle_shared_volume_cases env st s hsp
            rw [if_neg hb, hv, if_pos rfl] at hstep
            rw [hstep] at hc
            rcases hc.2 with hok | herr
            · obtain ⟨m, u2, hmm, _, hd⟩ := hok.2
              exact ⟨m, hmm, hd⟩
            · obtain ⟨e, he⟩ := herr.1
              simp at he
          · rw [if_neg hb, if_neg hv] at hstep
            simp at hstep
      obtain ⟨m, hmm, hd⟩ := hm2
      obtain ⟨ms, hms, hf⟩ := ih st2 h
      refine ⟨m :: ms, ?_, List.Forall₂.cons hd hf⟩
      show (do_handle_storage env hsp st2 rest).1.oci_mounts_info
        = st.oci_mounts_info ++ (m :: ms)
      rw [hms, hmm]
      simp

/-- C6 witness: injecting one block and one shared descriptor appends two
mounts in declaration order. -/
theorem claim_C6_witness :
    ∃ ms, (do_handle_storage envW "/run/host/shared" initState
          [volBlk, volShared]).1.oci_mounts_info
        = initState.oci_mounts_info ++ ms
      ∧ List.Forall₂ mount_from_storage ms [volBlk, volShared] :=
  claim_C6 envW "/run/host/shared" [volBlk, volShared] initState (by decide)

/-- A successful clh boot reports hybrid-vsock transport, and its event trace
is the optional sidecar setup followed by the VM start: no device attach call
is ever issued. -/
theorem clh_setup_ok_desc (env : BootEnv) (vm : TestVmM)
    (h : (clh_setup_test_vm env).2 = .ok vm) :
    vm.is_hybrid_vsock = true
    ∧ ((clh_setup_test_vm env).1 = [BootEvent.start_vm]
       ∨ (clh_setup_test_vm env).1 = [BootEvent.setup_shared_fs, BootEvent.start_vm]) := by
  cases hL : env.load_config with
  | error e => simp [clh_setup_test_vm, hL] at h
  | ok u0 =>
    cases u0
    cases hC : env.hypervisor_config with
    | none => simp [clh_setup_test_vm, hL, hC] at h
    | some cfg =>
      cases hP : env.prepare_vm with
      | error e => simp [clh_setup_test_vm, hL, hC, hP] at h
      | ok u1 =>
        cases u1
        cases hD : env.new_device_manager with
        | error e => simp [clh_setup_test_vm, hL, hC, hP, hD] at h
        | ok u2 =>
          cases u2
          cases hK : env.capabilities with
          | error e => simp [clh_setup_test_vm, hL, hC, hP, hD, hK] at h
          | ok fs_sharing =>
            cases fs_sharing with
            | false =>
              cases hS : env.start_vm with
              | error e => simp [clh_setup_test_vm, hL, hC, hP, hD, hK, hS] at h
              | ok u3 =>
                cases u3
                cases hA : env.get_agent_socket with
                | error e => simp [clh_setup_test_vm, hL, hC, hP, hD, hK, hS, hA] at h
                | ok addr =>
                  simp only [clh_setup_test_vm, hL, hC, hP, hD, hK, hS, hA] at h ⊢
                  simp at h
                  exact ⟨by rw [← h], Or.inl (by simp)⟩
            | true =>
              cases hV : env.setup_virtio_fs with
              | error e => simp [clh_setup_test_vm, hL, hC, hP, hD, hK, hV] at h
              | ok sfs =>
                cases hS : env.start_vm with
                | error e => simp [clh_setup_test_vm, hL, hC, hP, hD, hK, hV, hS] at h
                | ok u3 =>
                  cases u3
                  cases hA : env.get_agent_socket with
                  | error e =>
                    simp [clh_setup_test_vm, hL, hC, hP, hD, hK, hV, hS, hA] at h
                  | ok addr =>
                    simp only [clh_setup_test_vm, hL, hC, hP, hD, hK, hV, hS, hA] at h ⊢
                    simp at h
                    exact ⟨by rw [← h], Or.inr (by simp)⟩

/-- A successful qemu boot reports plain vsock transport, and its event trace
is the wildcard-CID vsock attach, then the rootfs block attach exactly when
the configured image is non-empty, then the optional sidecar setup, then the
VM start. -/
theorem qemu_setup_ok_desc (env : BootEnv) (cfg : HypervisorConfigM) (vm : TestVmM)
    (hcfg : env.hypervisor_config = some cfg)
    (h : (qemu_setup_test_vm env).2 = .ok vm) :
    vm.is_hybrid_vsock = false
    ∧ ∃ evs1 evs2,
        (qemu_setup_test_vm env).1
          = BootEvent.attach_vsock VMADDR_CID_ANY :: (evs1 ++ evs2 ++ [BootEvent.start_vm])
        ∧ evs1 = (if cfg.image.isEmpty then []
            else [BootEvent.attach_block_rootfs cfg.image true])
        ∧ (evs2 = [] ∨ evs2 = [BootEvent.setup_shared_fs]) := by
  cases hL : env.load_config with
  | error e => simp [qemu_setup_test_vm, hL] at h
  | ok u0 =>
    cases u0
    cases hP : env.prepare_vm with
    | error e => simp [qemu_setup_test_vm, hL, hcfg, hP] at h
    | ok u1 =>
      cases u1
      cases hD : env.new_device_manager with
      | error e => simp [qemu_setup_test_vm, hL, hcfg, hP, hD] at h
      | ok u2 =>
        cases u2
        cases hV : env.attach_vsock with
        | error e => simp [qemu_setup_test_vm, hL, hcfg, hP, hD, hV] at h
        | ok u3 =>
          cases u3
          by_cases hI : cfg.image.isEmpty
          · cases hK : env.capabilities with
            | error e => simp [qemu_setup_test_vm, hL, hcfg, hP, hD, hV, hI, hK] at h
            | ok fs_sharing =>
              cases fs_sharing with
              | false =>
                cases hS : env.start_vm with
                | error e =>
                  simp [qemu_setup_test_vm, hL, hcfg, hP, hD, hV, hI, hK, hS] at h
                | ok u4 =>
                  cases u4
                  cases hA : env.get_agent_socket with
                  | error e =>
                    simp [qemu_setup_test_vm, hL, hcfg, hP, hD, hV, hI, hK, hS, hA] at h
                  | ok addr =>
                    simp only [qemu_setup_test_vm, hL, hcfg, hP, hD, hV, hI, hK, hS, hA,
                      if_pos] at h ⊢
                    simp at h
                    exact ⟨by rw [← h], [], [], by simp [hI], by simp [hI], Or.inl rfl⟩
              | true =>
                cases hF : env.setup_virtio_fs with
                | error e =>
                  simp [qemu_setup_test_vm, hL, hcfg, hP, hD, hV, hI, hK, hF] at h
                | ok sfs =>
                  cases hS : env.start_vm with
                  | error e =>
                    simp [qemu_setup_test_vm, hL, hcfg, hP, hD, hV, hI, hK, hF, hS] at h
                  | ok u4 =>
                    cases u4
                    cases hA : env.get_agent_socket with
                    | error e =>
                      simp [qemu_setup_test_vm, hL, hcfg, hP, hD, hV, hI, hK, hF, hS, hA] at h
                    | ok addr =>
                      simp only [qemu_setup_test_vm, hL, hcfg, hP, hD, hV, hI, hK, hF, hS,
                        hA, if_pos] at h ⊢
                      simp at h
                      exact ⟨by rw [← h], [], [BootEvent.setup_shared_fs],
                        by simp [hI], by simp [hI], Or.inr rfl⟩
          · cases hB : env.attach_block with
            | error e => simp [qemu_setup_test_vm, hL, hcfg, hP, hD, hV, hI, hB] at h
            | ok u5 =>
              cases u5
              cases hK : env.capabilities with
              | error e => simp [qemu_setup_test_vm, hL, hcfg, hP, hD, hV, hI, hB, hK] at h
              | ok fs_sharing =>
                cases fs_sharing with
                | false =>
                  cases hS : env.start_vm with
                  | error e =>
                    simp [qemu_setup_test_vm, hL, hcfg, hP, hD, hV, hI, hB, hK, hS] at h
                  | ok u4 =>
                    cases u4
                    cases hA : env.get_agent_socket with
                    | error e =>
                      simp [qemu_setup_test_vm, hL, hcfg, hP, hD, hV, hI, hB, hK, hS, hA] at h
                    | ok addr =>
                      simp only [qemu_setup_test_vm, hL, hcfg, hP, hD, hV, hI, hB, hK, hS,
                        hA, if_neg] at h ⊢
                      simp at h
                      exact ⟨by rw [← h], [BootEvent.attach_block_rootfs cfg.image true], [],
                        by simp [hI], by simp [hI], Or.inl rfl⟩
                | true =>
                  cases hF : env.setup_virtio_fs with
                  | error e =>
                    simp [qemu_setup_test_vm, hL, hcfg, hP, hD, hV, hI, hB, hK, hF] at h
                  | ok sfs =>
                    cases hS : env.start_vm with
                    | error e =>
                      simp [qemu_setup_test_vm, hL, hcfg, hP, hD, hV, hI, hB, hK, hF, hS] at h
                    | ok u4 =>
                      cases u4
                      cases hA : env.get_agent_socket with
                      | error e =>
                        simp [qemu_setup_test_vm, hL, hcfg, hP, hD, hV, hI, hB, hK, hF,
                          hS, hA] at h
                      | ok addr =>
                        simp only [qemu_setup_test_vm, hL, hcfg, hP, hD, hV, hI, hB, hK, hF,
                          hS, hA, if_neg] at h ⊢
                        simp at h
                        exact ⟨by rw [← h],
                          [BootEvent.attach_block_rootfs cfg.image true],
                          [BootEvent.setup_shared_fs],
                          by simp [hI], by simp [hI], Or.inr rfl⟩

/-- C8: during boot the Cloud-Hypervisor backend reports hybrid-vsock and
never issues a vsock or hybrid-vsock device attach, while the Qemu backend
attaches a vsock device with the wildcard guest CID and, when the configured
rootfs image path is non-empty, attaches that image as a read-only block
device, all before the VM is started. -/
theorem claim_C8 (env : BootEnv) (cfg : HypervisorConfigM)
    (hcfg : env.hypervisor_config = some cfg) :
    (∀ vm, (clh_setup_test_vm env).2 = .ok vm →
      vm.is_hybrid_vsock = true
      ∧ (∀ cid, BootEvent.attach_vsock cid ∉ (clh_setup_test_vm env).1)
      ∧ (∀ cid p, BootEvent.attach_hybrid_vsock cid p ∉ (clh_setup_test_vm env).1))
    ∧ (∀ vm, (qemu_setup_test_vm env).2 = .ok vm →
      vm.is_hybrid_vsock = false
      ∧ ∃ pre, (qemu_setup_test_vm env).1 = pre ++ [BootEvent.start_vm]
          ∧ BootEvent.start_vm ∉ pre
          ∧ BootEvent.attach_vsock VMADDR_CID_ANY ∈ pre
          ∧ (cfg.image ≠ "" → BootEvent.attach_block_rootfs cfg.image true ∈ pre)) := by
  constructor
  · intro vm h
    obtain ⟨hv, htr⟩ := clh_setup_ok_desc env vm h
    refine ⟨hv, ?_, ?_⟩
    · intro cid
      rcases htr with h1 | h1 <;> simp [h1]
    · intro cid p
      rcases htr with h1 | h1 <;> simp [h1]
  · intro vm h
    obtain ⟨hv, evs1, evs2, htr, he1, he2⟩ := qemu_setup_ok_desc env cfg vm hcfg h
    refine ⟨hv, BootEvent.attach_vsock VMADDR_CID_ANY :: (evs1 ++ evs2), ?_, ?_, ?_, ?_⟩
    · simpa using htr
    · rcases he2 with h2 | h2 <;>
        by_cases hI : cfg.image.isEmpty <;>
          simp [he1, h2, hI]
    · simp
    · intro hne
      have hIf : cfg.image.isEmpty = false := by
        cases hE : cfg.image.isEmpty
        · rfl
        · exact absurd ((String.isEmpty_iff cfg.image).mp hE) hne
      simp [he1, hIf]

/-- C8 witness: with the witness boot environment, the clh trace contains no
vsock attach while the qemu trace contains the wildcard vsock attach and the
read-only rootfs block attach. -/
theorem claim_C8_witness :
    BootEvent.attach_vsock VMADDR_CID_ANY ∉ (clh_setup_test_vm bootEnvW).1
    ∧ BootEvent.attach_vsock VMADDR_CID_ANY ∈ (qemu_setup_test_vm bootEnvW).1
    ∧ BootEvent.attach_block_rootfs cfgW.image true ∈ (qemu_setup_test_vm bootEnvW).1 := by
  have h := claim_C8 bootEnvW cfgW rfl
  have h1 := h.1 vmClhW (by decide)
  have h2 := h.2 vmQemuW (by decide)
  obtain ⟨pre, hpre, hns, hmem, himg⟩ := h2.2
  refine ⟨h1.2.1 VMADDR_CID_ANY, ?_, ?_⟩
  · rw [hpre]; exact List.mem_append_left _ hmem
  · rw [hpre]; exact List.mem_append_left _ (himg (by decide))

end KataAgentCtl
